import Mathlib

/-!
Verification of the lead-capture research form component
(`src/components/landing/ResearchForm.tsx` and its near-duplicate variant).

Variant A (`ResearchForm.tsx`) has five zod schema fields — `name`, `phone`,
`email`, `researchTopic` and an optional, user-editable `submissionUrl` — and
posts a payload keyed `name/phone/email/researchTopic/timestamp`.

Variant B (the file whose name is unknown) has four schema fields, takes the
submission URL as a component prop defaulting to the placeholder testing URL,
and renames the `phone` key to `contact` in the payload.

The embedding models the zod validator, the react-hook-form `handleSubmit`
gate, and the `onSubmit` handler as pure functions; the single `fetch` call is
represented by a `FetchResult` argument and the list of issued requests is
returned explicitly so that frame properties about network calls can be
stated.  String processing is carried out on `List Char` so that every
definition evaluates inside the kernel.
-/

namespace ResearchForm

/-- JS `String.prototype.trim` (the zod `.trim()` transform): strip leading
and trailing whitespace. -/
def trimChars (l : List Char) : List Char :=
  ((l.dropWhile Char.isWhitespace).reverse.dropWhile Char.isWhitespace).reverse

/-- The zod `.trim()` transform at the `String` level: the parsed output value
of a `z.string().trim()` field. -/
def trimString (s : String) : String := String.mk (trimChars s.data)

/-- Split a character list at every occurrence of the separator, JS
`String.prototype.split` with a one-character separator. -/
def splitOnChar (sep : Char) : List Char → List (List Char)
  | [] => [[]]
  | c :: rest =>
    if c = sep then [] :: splitOnChar sep rest
    else
      match splitOnChar sep rest with
      | h :: t => (c :: h) :: t
      | [] => [[c]]

/-- Character class `[A-Z0-9_'+\-\.]` (case-insensitive) of the local part of
zod's email regular expression.  The apostrophe is written by code point. -/
def isEmailLocalChar (c : Char) : Bool :=
  c.isAlphanum || c = '_' || c = Char.ofNat 39 || c = '+' || c = '-' || c = '.'

/-- Character class `[A-Z0-9_+-]` (case-insensitive): the character zod's
email regular expression requires immediately before the `@`. -/
def isEmailLocalEndChar (c : Char) : Bool :=
  c.isAlphanum || c = '_' || c = '+' || c = '-'

/-- One inner domain label `[A-Z0-9][A-Z0-9\-]*` of zod's email regular
expression: non-empty, starts alphanumeric, continues alphanumeric or `-`. -/
def emailDomainLabelOk : List Char → Bool
  | [] => false
  | c :: cs => c.isAlphanum && cs.all (fun d => d.isAlphanum || d = '-')

/-- Final domain label `[A-Z]{2,}` of zod's email regular expression. -/
def emailTldOk (l : List Char) : Bool :=
  decide (2 ≤ l.length) && l.all Char.isAlpha

/-- Two consecutive dots somewhere in the string: the `(?!.*\.\.)` negative
lookahead of zod's email regular expression. -/
def hasDoubleDot : List Char → Bool
  | a :: b :: rest => (a = '.' && b = '.') || hasDoubleDot (b :: rest)
  | _ => false

/-- zod's `.email()` check: the regular expression
`/^(?!\.)(?!.*\.\.)([A-Z0-9_'+\-\.]*)[A-Z0-9_+-]@([A-Z0-9][A-Z0-9\-]*\.)+[A-Z]{2,}$/i`
rendered structurally: exactly one `@`; a non-empty local part of local
characters whose last character is not a dot or apostrophe; the whole string
neither starts with a dot nor contains `..`; a domain of one or more inner
labels followed by an alphabetic top-level label of length at least two. -/
def emailRegexMatches (l : List Char) : Bool :=
  match splitOnChar '@' l with
  | [localPart, domain] =>
    localPart.all isEmailLocalChar
    && (match localPart.getLast? with
        | some c => isEmailLocalEndChar c
        | none => false)
    && !(match l with
         | ch :: _ => ch = '.'
         | [] => false)
    && !(hasDoubleDot l)
    && (let parts := splitOnChar '.' domain
        decide (2 ≤ parts.length)
        && parts.dropLast.all emailDomainLabelOk
        && (match parts.getLast? with
            | some t => emailTldOk t
            | none => false))
  | _ => false

def isValidEmail (s : String) : Bool := emailRegexMatches s.data

/-- Helper for the URL model: split at the first `://`, requiring the part
before it to contain no `:`. -/
def splitScheme : List Char → Option (List Char × List Char)
  | [] => none
  | c :: rest =>
    if c = ':' then
      match rest with
      | s₁ :: s₂ :: r => if s₁ = '/' && s₂ = '/' then some ([], r) else none
      | _ => none
    else
      match splitScheme rest with
      | some (pre, post) => some (c :: pre, post)
      | none => none

/-- Modelled library call: zod's `.url()` succeeds exactly when the platform
`new URL(value)` constructor does.  The WHATWG parser first strips leading and
trailing whitespace; it is modelled as then requiring an alphabetic non-empty
scheme followed by `://` and a non-empty remainder, which covers every input
the claims touch (false on the empty and whitespace-only strings, true on the
`https://...` endpoints appearing in the component). -/
def isValidUrl (s : String) : Bool :=
  match splitScheme (trimChars s.data) with
  | some (scheme, rest) => !scheme.isEmpty && scheme.all Char.isAlpha && !rest.isEmpty
  | none => false

/-- `z.string().trim().min(1, "Name is required").max(100, ...)`:
the first failing check's message, `none` when the trimmed value passes. -/
def checkName (s : String) : Option String :=
  let t := trimChars s.data
  if t.length < 1 then some "Name is required"
  else if 100 < t.length then some "Name must be less than 100 characters"
  else none

/-- `z.string().trim().min(1, "Phone number is required").max(20, ...)`. -/
def checkPhone (s : String) : Option String :=
  let t := trimChars s.data
  if t.length < 1 then some "Phone number is required"
  else if 20 < t.length then some "Phone number must be less than 20 characters"
  else none

/-- `z.string().trim().email("Invalid email address").max(255, ...)`:
the email format check runs on the trimmed value, before the length check. -/
def checkEmail (s : String) : Option String :=
  let t := trimChars s.data
  if !(emailRegexMatches t) then some "Invalid email address"
  else if 255 < t.length then some "Email must be less than 255 characters"
  else none

/-- Variant A: `z.string().trim().min(1, "Research topic is required").max(500, ...)`. -/
def checkResearchTopicA (s : String) : Option String :=
  let t := trimChars s.data
  if t.length < 1 then some "Research topic is required"
  else if 500 < t.length then some "Research topic must be less than 500 characters"
  else none

/-- Variant B: `z.string().trim().min(1, "Research area is required").max(500, ...)`. -/
def checkResearchTopicB (s : String) : Option String :=
  let t := trimChars s.data
  if t.length < 1 then some "Research area is required"
  else if 500 < t.length then some "Research area must be less than 500 characters"
  else none

/-- Variant A: `z.string().url("Please enter a valid URL").optional().or(z.literal(''))`.
A string input passes when it is a valid URL or exactly the empty string
(`.optional()` only admits `undefined`, which a controlled text input never
produces); note the chain has no `.trim()`. -/
def checkSubmissionUrl (s : String) : Option String :=
  if isValidUrl s || s = "" then none
  else some "Please enter a valid URL"

/-- Variant A form values: the five fields of `researchFormSchema`. -/
structure FormValuesA where
  name : String
  phone : String
  email : String
  researchTopic : String
  submissionUrl : String
deriving DecidableEq, Repr

/-- Variant B form values: four fields, the endpoint being a component prop. -/
structure FormValuesB where
  name : String
  phone : String
  email : String
  researchTopic : String
deriving DecidableEq, Repr

/-- The field names of variant A's `researchFormSchema`, in declaration order. -/
inductive FieldA | name | phone | email | researchTopic | submissionUrl
deriving DecidableEq, Repr, Fintype

/-- The field names of variant B's `researchFormSchema`, in declaration order. -/
inductive FieldB | name | phone | email | researchTopic
deriving DecidableEq, Repr, Fintype

def FieldA.key : FieldA → String
  | .name => "name"
  | .phone => "phone"
  | .email => "email"
  | .researchTopic => "researchTopic"
  | .submissionUrl => "submissionUrl"

def FieldB.key : FieldB → String
  | .name => "name"
  | .phone => "phone"
  | .email => "email"
  | .researchTopic => "researchTopic"

def FieldA.value : FieldA → FormValuesA → String
  | .name, v => v.name
  | .phone, v => v.phone
  | .email, v => v.email
  | .researchTopic, v => v.researchTopic
  | .submissionUrl, v => v.submissionUrl

def FieldB.value : FieldB → FormValuesB → String
  | .name, v => v.name
  | .phone, v => v.phone
  | .email, v => v.email
  | .researchTopic, v => v.researchTopic

/-- The per-field zod check of variant A's schema. -/
def FieldA.check : FieldA → String → Option String
  | .name => checkName
  | .phone => checkPhone
  | .email => checkEmail
  | .researchTopic => checkResearchTopicA
  | .submissionUrl => checkSubmissionUrl

/-- The per-field zod check of variant B's schema. -/
def FieldB.check : FieldB → String → Option String
  | .name => checkName
  | .phone => checkPhone
  | .email => checkEmail
  | .researchTopic => checkResearchTopicB

def fieldsA : List FieldA := [.name, .phone, .email, .researchTopic, .submissionUrl]

def fieldsB : List FieldB := [.name, .phone, .email, .researchTopic]

/-- `validate` for variant A: parsing `researchFormSchema` against the raw
form values, collected as a field-keyed error list (empty ⇔ valid), each field
contributing its first failing check's message. -/
def validateA (v : FormValuesA) : List (String × String) :=
  fieldsA.filterMap (fun f => (f.check (f.value v)).map (fun m => (f.key, m)))

/-- `validate` for variant B. -/
def validateB (v : FormValuesB) : List (String × String) :=
  fieldsB.filterMap (fun f => (f.check (f.value v)).map (fun m => (f.key, m)))

/-- The zod parse output handed to `onSubmit` by `zodResolver` when variant
A's validation succeeds: the four `.trim()` fields come out trimmed, the
`submissionUrl` chain has no `.trim()` and passes through unchanged. -/
def parseA (v : FormValuesA) : FormValuesA :=
  { name := trimString v.name
    phone := trimString v.phone
    email := trimString v.email
    researchTopic := trimString v.researchTopic
    submissionUrl := v.submissionUrl }

/-- The zod parse output for variant B: all four fields are trimmed. -/
def parseB (v : FormValuesB) : FormValuesB :=
  { name := trimString v.name
    phone := trimString v.phone
    email := trimString v.email
    researchTopic := trimString v.researchTopic }

/-- The placeholder testing endpoint
`https://jsonplaceholder.typicode.com/posts` appearing as variant A's default
field value and fallback, and as variant B's default prop value. -/
def placeholderUrl : String := "https://jsonplaceholder.typicode.com/posts"

/-- Variant A's `defaultValues` passed to `useForm` — what `form.reset()`
restores: empty data fields, but `submissionUrl` defaults to the placeholder
testing URL. -/
def defaultValuesA : FormValuesA :=
  { name := "", phone := "", email := "", researchTopic := ""
    submissionUrl := placeholderUrl }

/-- Variant B's `defaultValues`: all four fields empty. -/
def defaultValuesB : FormValuesB :=
  { name := "", phone := "", email := "", researchTopic := "" }

/-- Variant A line 47: `data.submissionUrl || 'https://jsonplaceholder.typicode.com/posts'`.
JS `||` takes the right operand when the left is falsy, i.e. `undefined`
(the field omitted) or the empty string. -/
def resolveSubmissionUrl : Option String → String
  | none => placeholderUrl
  | some s => if s = "" then placeholderUrl else s

/-- The result of the single `fetch` call: either an HTTP response with a
status code, or a rejected promise (network/DNS/transport failure) carrying
the thrown error's message. -/
inductive FetchResult
  | response (status : Nat)
  | transportError (msg : String)
deriving DecidableEq, Repr

/-- `Response.ok` per the Fetch standard: status in the range [200, 300). -/
def responseOk (status : Nat) : Bool :=
  decide (200 ≤ status) && decide (status < 300)

/-- One issued HTTP request: the `fetch(submissionUrl, {method: 'POST',
headers: {'Content-Type': 'application/json'}, body: JSON.stringify(payload)})`
call, with the JSON body kept as its ordered key/value pairs. -/
structure Request where
  url : String
  httpMethod : String
  contentType : String
  body : List (String × String)
deriving DecidableEq, Repr

/-- Variant A's `payload` object literal: the parsed field values under their
own names plus `timestamp: new Date().toISOString()`; the send-time clock
reading is the `now` argument. -/
def payloadA (d : FormValuesA) (now : String) : List (String × String) :=
  [("name", d.name), ("phone", d.phone), ("email", d.email),
   ("researchTopic", d.researchTopic), ("timestamp", now)]

/-- Variant B's `payload` object literal: identical except the phone value is
sent under the key `contact`. -/
def payloadB (d : FormValuesB) (now : String) : List (String × String) :=
  [("name", d.name), ("contact", d.phone), ("email", d.email),
   ("researchTopic", d.researchTopic), ("timestamp", now)]

/-- The spec's SubmissionState, read off the component's `isSubmitting` and
`isSubmitted` flags (a Failed outcome is surfaced as a transient toast, not
stored, so the stored state after failure is Idle). -/
inductive SubmissionState
  | Idle
  | Submitting
  | Succeeded
  | Failed (msg : String)
deriving DecidableEq, Repr

/-- The terminal report of one submission attempt. -/
inductive Outcome
  | Succeeded
  | Failed (reason : String)
  | LocalValidationError
deriving DecidableEq, Repr

/-- Variant A component state: the controlled field values together with the
`isSubmitting` and `isSubmitted` `useState` flags. -/
structure FormStateA where
  values : FormValuesA
  isSubmitting : Bool
  isSubmitted : Bool
deriving DecidableEq, Repr

/-- Variant B component state. -/
structure FormStateB where
  values : FormValuesB
  isSubmitting : Bool
  isSubmitted : Bool
deriving DecidableEq, Repr

def FormStateA.submissionState (s : FormStateA) : SubmissionState :=
  if s.isSubmitting then .Submitting
  else if s.isSubmitted then .Succeeded
  else .Idle

def FormStateB.submissionState (s : FormStateB) : SubmissionState :=
  if s.isSubmitting then .Submitting
  else if s.isSubmitted then .Succeeded
  else .Idle

/-- The observable result of one submit invocation: the component state when
the handler has completed, the network calls it issued, and the outcome it
reported (`none` when the invocation was swallowed by the disabled-button
guard). -/
structure SubmitResultA where
  state : FormStateA
  calls : List Request
  outcome : Option Outcome
deriving DecidableEq, Repr

structure SubmitResultB where
  state : FormStateB
  calls : List Request
  outcome : Option Outcome
deriving DecidableEq, Repr

/-- One submit invocation of variant A, from the submit event to the settled
handler.  The button's `disabled={isSubmitting}` makes the event a no-op
while a submission is in flight.  Otherwise `form.handleSubmit` runs the zod
resolver: on errors it only records them (no `onSubmit`, no network call); on
success `onSubmit` runs with the parsed data — `setIsSubmitting(true)`,
resolve the URL, build the payload, issue the POST, then on `response.ok` set
`isSubmitted` and `form.reset()`, on any other status or a rejected fetch
fall into `catch` leaving the values untouched, and in `finally`
`setIsSubmitting(false)`. -/
def submitA (s : FormStateA) (fr : FetchResult) (now : String) : SubmitResultA :=
  if s.isSubmitting then
    { state := s, calls := [], outcome := none }
  else if validateA s.values = [] then
    let data := parseA s.values
    let url := resolveSubmissionUrl (some data.submissionUrl)
    let req : Request :=
      { url := url, httpMethod := "POST", contentType := "application/json"
        body := payloadA data now }
    match fr with
    | .response status =>
      if responseOk status then
        { state := { values := defaultValuesA, isSubmitting := false, isSubmitted := true }
          calls := [req]
          outcome := some .Succeeded }
      else
        { state := { values := s.values, isSubmitting := false, isSubmitted := s.isSubmitted }
          calls := [req]
          outcome := some (.Failed ("HTTP error! status: " ++ toString status)) }
    | .transportError msg =>
      { state := { values := s.values, isSubmitting := false, isSubmitted := s.isSubmitted }
        calls := [req]
        outcome := some (.Failed msg) }
  else
    { state := s, calls := [], outcome := some .LocalValidationError }

/-- One submit invocation of variant B; the endpoint is the `submissionUrl`
prop (defaulting to the placeholder URL at the component boundary), and the
payload renames `phone` to `contact`. -/
def submitB (submissionUrl : String) (s : FormStateB) (fr : FetchResult)
    (now : String) : SubmitResultB :=
  if s.isSubmitting then
    { state := s, calls := [], outcome := none }
  else if validateB s.values = [] then
    let data := parseB s.values
    let req : Request :=
      { url := submissionUrl, httpMethod := "POST", contentType := "application/json"
        body := payloadB data now }
    match fr with
    | .response status =>
      if responseOk status then
        { state := { values := defaultValuesB, isSubmitting := false, isSubmitted := true }
          calls := [req]
          outcome := some .Succeeded }
      else
        { state := { values := s.values, isSubmitting := false, isSubmitted := s.isSubmitted }
          calls := [req]
          outcome := some (.Failed ("HTTP error! status: " ++ toString status)) }
    | .transportError msg =>
      { state := { values := s.values, isSubmitting := false, isSubmitted := s.isSubmitted }
        calls := [req]
        outcome := some (.Failed msg) }
  else
    { state := s, calls := [], outcome := some .LocalValidationError }

/-- The Scenario A/B form values of the spec (variant A, with the optional
endpoint field left empty). -/
def scenarioValuesA : FormValuesA :=
  { name := "Jane Doe", phone := "555-1234", email := "jane@x.edu"
    researchTopic := "AI ethics", submissionUrl := "" }

/-- The Scenario A/B form values for variant B. -/
def scenarioValuesB : FormValuesB :=
  { name := "Jane Doe", phone := "555-1234", email := "jane@x.edu"
    researchTopic := "AI ethics" }

/-- An idle, not-yet-submitted variant A state holding the scenario values. -/
def scenarioStateA : FormStateA :=
  { values := scenarioValuesA, isSubmitting := false, isSubmitted := false }

/-- An idle, not-yet-submitted variant B state holding the scenario values. -/
def scenarioStateB : FormStateB :=
  { values := scenarioValuesB, isSubmitting := false, isSubmitted := false }

/-- A fixed clock reading used by the concrete witnesses. -/
def scenarioNow : String := "2025-01-01T00:00:00.000Z"

/-- The Scenario C values: required name field empty, everything else valid. -/
def scenarioCValuesA : FormValuesA :=
  { name := "", phone := "555-1234", email := "jane@x.edu"
    researchTopic := "AI ethics", submissionUrl := "" }

def scenarioCValuesB : FormValuesB :=
  { name := "", phone := "555-1234", email := "jane@x.edu"
    researchTopic := "AI ethics" }

def scenarioCStateA : FormStateA :=
  { values := scenarioCValuesA, isSubmitting := false, isSubmitted := false }

def scenarioCStateB : FormStateB :=
  { values := scenarioCValuesB, isSubmitting := false, isSubmitted := false }

/-- A variant A state with a submission already in flight. -/
def inFlightStateA : FormStateA :=
  { values := scenarioValuesA, isSubmitting := true, isSubmitted := false }

/-- A variant B state with a submission already in flight. -/
def inFlightStateB : FormStateB :=
  { values := scenarioValuesB, isSubmitting := true, isSubmitted := false }


/-! ### Helper lemmas -/

lemma checkName_none_iff (s : String) :
    checkName s = none ↔
      1 ≤ (trimChars s.data).length ∧ (trimChars s.data).length ≤ 100 := by
  simp only [checkName]
  split_ifs <;> simp <;> omega

lemma checkPhone_none_iff (s : String) :
    checkPhone s = none ↔
      1 ≤ (trimChars s.data).length ∧ (trimChars s.data).length ≤ 20 := by
  simp only [checkPhone]
  split_ifs <;> simp <;> omega

lemma checkEmail_none_iff (s : String) :
    checkEmail s = none ↔
      emailRegexMatches (trimChars s.data) = true ∧ (trimChars s.data).length ≤ 255 := by
  simp only [checkEmail]
  split_ifs with h1 h2 <;> simp_all

lemma checkResearchTopicA_none_iff (s : String) :
    checkResearchTopicA s = none ↔
      1 ≤ (trimChars s.data).length ∧ (trimChars s.data).length ≤ 500 := by
  simp only [checkResearchTopicA]
  split_ifs <;> simp <;> omega

lemma checkResearchTopicB_none_iff (s : String) :
    checkResearchTopicB s = none ↔
      1 ≤ (trimChars s.data).length ∧ (trimChars s.data).length ≤ 500 := by
  simp only [checkResearchTopicB]
  split_ifs <;> simp <;> omega

lemma checkSubmissionUrl_none_iff (s : String) :
    checkSubmissionUrl s = none ↔ (s = "" ∨ isValidUrl s = true) := by
  simp only [checkSubmissionUrl]
  split_ifs with h <;> simp_all [Bool.or_eq_true]
  tauto

lemma validateA_nil_iff (v : FormValuesA) :
    validateA v = [] ↔
      (checkName v.name = none ∧ checkPhone v.phone = none ∧ checkEmail v.email = none ∧
       checkResearchTopicA v.researchTopic = none ∧
       checkSubmissionUrl v.submissionUrl = none) := by
  simp [validateA, List.filterMap_eq_nil_iff, fieldsA, Option.map_eq_none',
        FieldA.check, FieldA.value]

lemma validateB_nil_iff (v : FormValuesB) :
    validateB v = [] ↔
      (checkName v.name = none ∧ checkPhone v.phone = none ∧ checkEmail v.email = none ∧
       checkResearchTopicB v.researchTopic = none) := by
  simp [validateB, List.filterMap_eq_nil_iff, fieldsB, Option.map_eq_none',
        FieldB.check, FieldB.value]

lemma submissionStateA_submitting_iff (s : FormStateA) :
    s.submissionState = .Submitting ↔ s.isSubmitting = true := by
  simp only [FormStateA.submissionState]
  split_ifs <;> simp_all

lemma submissionStateB_submitting_iff (s : FormStateB) :
    s.submissionState = .Submitting ↔ s.isSubmitting = true := by
  simp only [FormStateB.submissionState]
  split_ifs <;> simp_all

lemma submitA_calls_eq (s : FormStateA) (fr : FetchResult) (now : String)
    (hsub : s.isSubmitting = false) (hval : validateA s.values = []) :
    (submitA s fr now).calls =
      [{ url := resolveSubmissionUrl (some s.values.submissionUrl)
         httpMethod := "POST", contentType := "application/json"
         body := payloadA (parseA s.values) now }] := by
  cases fr with
  | response status =>
    by_cases h : responseOk status = true <;> simp [submitA, hsub, hval, parseA, h]
  | transportError m => simp [submitA, hsub, hval, parseA]

lemma submitB_calls_eq (url : String) (s : FormStateB) (fr : FetchResult) (now : String)
    (hsub : s.isSubmitting = false) (hval : validateB s.values = []) :
    (submitB url s fr now).calls =
      [{ url := url, httpMethod := "POST", contentType := "application/json"
         body := payloadB (parseB s.values) now }] := by
  cases fr with
  | response status =>
    by_cases h : responseOk status = true <;> simp [submitB, hsub, hval, h]
  | transportError m => simp [submitB, hsub, hval]

/-- Whether the fetch result takes the failure path of `onSubmit`: an HTTP
response with `response.ok` false (which `onSubmit` turns into a thrown
`HTTP error!`), or a rejected fetch promise. -/
def FetchResult.isFailure : FetchResult → Bool
  | .response status => !(responseOk status)
  | .transportError _ => true

/-- The schema fields carrying a required (`.min(1)`) check in variant A. -/
def requiredA : List FieldA := [.name, .phone, .researchTopic]

/-- The schema fields carrying a required (`.min(1)`) check in variant B. -/
def requiredB : List FieldB := [.name, .phone, .researchTopic]


/-! ### Claims -/

/-- Claim C1, counterexample: the claim says a 2xx response resets all
FormValues to all-empty strings. On variant A, submitting Scenario A's values
against HTTP 201 succeeds, yet the reset restores `defaultValues`, whose
`submissionUrl` is the placeholder URL — not the empty string. -/
theorem c1_counterexample :
    (submitA scenarioStateA (.response 201) scenarioNow).outcome = some .Succeeded ∧
    (submitA scenarioStateA (.response 201) scenarioNow).state.values.submissionUrl ≠ "" := by
  decide

/-- Claim C1 (amended): for every submission whose HTTP response has a 2xx
status, the outcome is Succeeded, the SubmissionState becomes Succeeded, and
FormValues are reset to the form's default values — every data field to the
empty string, and, in the variant with the user-editable endpoint field, the
`submissionUrl` field to the placeholder URL. -/
theorem c1_success_resets_to_defaults :
    (∀ (s : FormStateA) (status : Nat) (now : String),
      s.isSubmitting = false → validateA s.values = [] → responseOk status = true →
      (submitA s (.response status) now).outcome = some .Succeeded ∧
      (submitA s (.response status) now).state.submissionState = .Succeeded ∧
      (submitA s (.response status) now).state.values = defaultValuesA ∧
      defaultValuesA =
        { name := "", phone := "", email := "", researchTopic := ""
          submissionUrl := placeholderUrl }) ∧
    (∀ (url : String) (s : FormStateB) (status : Nat) (now : String),
      s.isSubmitting = false → validateB s.values = [] → responseOk status = true →
      (submitB url s (.response status) now).outcome = some .Succeeded ∧
      (submitB url s (.response status) now).state.submissionState = .Succeeded ∧
      (submitB url s (.response status) now).state.values = defaultValuesB ∧
      defaultValuesB = { name := "", phone := "", email := "", researchTopic := "" }) := by
  constructor
  · intro s status now hsub hval hok
    refine ⟨?_, ?_, ?_, rfl⟩ <;> simp [submitA, hsub, hval, hok, FormStateA.submissionState]
  · intro url s status now hsub hval hok
    refine ⟨?_, ?_, ?_, rfl⟩ <;> simp [submitB, hsub, hval, hok, FormStateB.submissionState]

/-- Claim C1, witness: Scenario A (HTTP 201 on Jane Doe's values) for both
variants, through the amended theorem. -/
theorem c1_witness :
    ((submitA scenarioStateA (.response 201) scenarioNow).outcome = some .Succeeded ∧
     (submitA scenarioStateA (.response 201) scenarioNow).state.submissionState = .Succeeded ∧
     (submitA scenarioStateA (.response 201) scenarioNow).state.values = defaultValuesA ∧
     defaultValuesA =
       { name := "", phone := "", email := "", researchTopic := ""
         submissionUrl := placeholderUrl }) ∧
    ((submitB placeholderUrl scenarioStateB (.response 201) scenarioNow).outcome =
       some .Succeeded ∧
     (submitB placeholderUrl scenarioStateB (.response 201) scenarioNow).state.submissionState =
       .Succeeded ∧
     (submitB placeholderUrl scenarioStateB (.response 201) scenarioNow).state.values =
       defaultValuesB ∧
     defaultValuesB = { name := "", phone := "", email := "", researchTopic := "" }) :=
  ⟨c1_success_resets_to_defaults.1 scenarioStateA 201 scenarioNow rfl (by decide) (by decide),
   c1_success_resets_to_defaults.2 placeholderUrl scenarioStateB 201 scenarioNow rfl
     (by decide) (by decide)⟩

/-- Claim C2: for every submission whose response has a non-2xx status or that
raises a transport error, the outcome is Failed, every FormValues entry is
preserved unchanged, and the SubmissionState returns to Idle, not Succeeded. -/
theorem c2_failure_preserves_values_returns_idle :
    (∀ (s : FormStateA) (fr : FetchResult) (now : String),
      s.isSubmitting = false → s.isSubmitted = false →
      validateA s.values = [] → fr.isFailure = true →
      (∃ reason, (submitA s fr now).outcome = some (.Failed reason)) ∧
      (submitA s fr now).state.values = s.values ∧
      (submitA s fr now).state.submissionState = .Idle) ∧
    (∀ (url : String) (s : FormStateB) (fr : FetchResult) (now : String),
      s.isSubmitting = false → s.isSubmitted = false →
      validateB s.values = [] → fr.isFailure = true →
      (∃ reason, (submitB url s fr now).outcome = some (.Failed reason)) ∧
      (submitB url s fr now).state.values = s.values ∧
      (submitB url s fr now).state.submissionState = .Idle) := by
  constructor
  · intro s fr now hsub hsubd hval hfail
    cases fr with
    | response status =>
      have hok : responseOk status = false := by
        simpa [FetchResult.isFailure] using hfail
      refine ⟨⟨"HTTP error! status: " ++ toString status, ?_⟩, ?_, ?_⟩ <;>
        simp [submitA, hsub, hval, hok, FormStateA.submissionState, hsubd]
    | transportError m =>
      refine ⟨⟨m, ?_⟩, ?_, ?_⟩ <;>
        simp [submitA, hsub, hval, FormStateA.submissionState, hsubd]
  · intro url s fr now hsub hsubd hval hfail
    cases fr with
    | response status =>
      have hok : responseOk status = false := by
        simpa [FetchResult.isFailure] using hfail
      refine ⟨⟨"HTTP error! status: " ++ toString status, ?_⟩, ?_, ?_⟩ <;>
        simp [submitB, hsub, hval, hok, FormStateB.submissionState, hsubd]
    | transportError m =>
      refine ⟨⟨m, ?_⟩, ?_, ?_⟩ <;>
        simp [submitB, hsub, hval, FormStateB.submissionState, hsubd]

/-- Claim C2, witness: Scenario B (HTTP 500 on Jane Doe's values) for both
variants. -/
theorem c2_witness :
    ((∃ reason,
        (submitA scenarioStateA (.response 500) scenarioNow).outcome =
          some (.Failed reason)) ∧
     (submitA scenarioStateA (.response 500) scenarioNow).state.values =
       scenarioStateA.values ∧
     (submitA scenarioStateA (.response 500) scenarioNow).state.submissionState = .Idle) ∧
    ((∃ reason,
        (submitB placeholderUrl scenarioStateB (.response 500) scenarioNow).outcome =
          some (.Failed reason)) ∧
     (submitB placeholderUrl scenarioStateB (.response 500) scenarioNow).state.values =
       scenarioStateB.values ∧
     (submitB placeholderUrl scenarioStateB (.response 500) scenarioNow).state.submissionState =
       .Idle) :=
  ⟨c2_failure_preserves_values_returns_idle.1 scenarioStateA (.response 500) scenarioNow
     rfl rfl (by decide) (by decide),
   c2_failure_preserves_values_returns_idle.2 placeholderUrl scenarioStateB (.response 500)
     scenarioNow rfl rfl (by decide) (by decide)⟩

/-- Claim C3: whenever validate returns a non-empty result, submit refuses to
send — the outcome is LocalValidationError, no network call is issued, and the
state is untouched. -/
theorem c3_invalid_values_refuse_send :
    (∀ (s : FormStateA) (fr : FetchResult) (now : String),
      s.isSubmitting = false → validateA s.values ≠ [] →
      submitA s fr now = { state := s, calls := [], outcome := some .LocalValidationError }) ∧
    (∀ (url : String) (s : FormStateB) (fr : FetchResult) (now : String),
      s.isSubmitting = false → validateB s.values ≠ [] →
      submitB url s fr now =
        { state := s, calls := [], outcome := some .LocalValidationError }) := by
  constructor
  · intro s fr now hsub hval
    simp [submitA, hsub, hval]
  · intro url s fr now hsub hval
    simp [submitB, hsub, hval]

/-- Claim C3, witness: Scenario C (empty required name field) for both
variants; validate is non-empty there, so submit is refused. -/
theorem c3_witness :
    submitA scenarioCStateA (.response 201) scenarioNow =
      { state := scenarioCStateA, calls := [], outcome := some .LocalValidationError } ∧
    submitB placeholderUrl scenarioCStateB (.response 201) scenarioNow =
      { state := scenarioCStateB, calls := [], outcome := some .LocalValidationError } :=
  ⟨c3_invalid_values_refuse_send.1 scenarioCStateA (.response 201) scenarioNow rfl (by decide),
   c3_invalid_values_refuse_send.2 placeholderUrl scenarioCStateB (.response 201) scenarioNow
     rfl (by decide)⟩

/-- Claim C4: when every required field is non-empty after trimming and within
its configured length bound, and every format-constrained field matches its
format, validate returns the empty result. -/
theorem c4_valid_values_validate_empty :
    (∀ v : FormValuesA,
      1 ≤ (trimChars v.name.data).length → (trimChars v.name.data).length ≤ 100 →
      1 ≤ (trimChars v.phone.data).length → (trimChars v.phone.data).length ≤ 20 →
      emailRegexMatches (trimChars v.email.data) = true →
      (trimChars v.email.data).length ≤ 255 →
      1 ≤ (trimChars v.researchTopic.data).length →
      (trimChars v.researchTopic.data).length ≤ 500 →
      (v.submissionUrl = "" ∨ isValidUrl v.submissionUrl = true) →
      validateA v = []) ∧
    (∀ v : FormValuesB,
      1 ≤ (trimChars v.name.data).length → (trimChars v.name.data).length ≤ 100 →
      1 ≤ (trimChars v.phone.data).length → (trimChars v.phone.data).length ≤ 20 →
      emailRegexMatches (trimChars v.email.data) = true →
      (trimChars v.email.data).length ≤ 255 →
      1 ≤ (trimChars v.researchTopic.data).length →
      (trimChars v.researchTopic.data).length ≤ 500 →
      validateB v = []) := by
  constructor
  · intro v h1 h2 h3 h4 h5 h6 h7 h8 h9
    exact (validateA_nil_iff v).mpr
      ⟨(checkName_none_iff _).mpr ⟨h1, h2⟩, (checkPhone_none_iff _).mpr ⟨h3, h4⟩,
       (checkEmail_none_iff _).mpr ⟨h5, h6⟩,
       (checkResearchTopicA_none_iff _).mpr ⟨h7, h8⟩,
       (checkSubmissionUrl_none_iff _).mpr h9⟩
  · intro v h1 h2 h3 h4 h5 h6 h7 h8
    exact (validateB_nil_iff v).mpr
      ⟨(checkName_none_iff _).mpr ⟨h1, h2⟩, (checkPhone_none_iff _).mpr ⟨h3, h4⟩,
       (checkEmail_none_iff _).mpr ⟨h5, h6⟩,
       (checkResearchTopicB_none_iff _).mpr ⟨h7, h8⟩⟩

/-- Claim C4, witness: the Scenario A values validate to the empty result in
both variants. -/
theorem c4_witness : validateA scenarioValuesA = [] ∧ validateB scenarioValuesB = [] :=
  ⟨c4_valid_values_validate_empty.1 scenarioValuesA (by decide) (by decide) (by decide)
     (by decide) (by decide) (by decide) (by decide) (by decide) (Or.inl rfl),
   c4_valid_values_validate_empty.2 scenarioValuesB (by decide) (by decide) (by decide)
     (by decide) (by decide) (by decide) (by decide) (by decide)⟩

/-- Claim C5: when exactly one required field is empty after trimming and
every other field passes its checks, validate returns an entry for exactly
that field and no other. -/
theorem c5_missing_required_field_single_error :
    (∀ (v : FormValuesA) (f : FieldA), f ∈ requiredA →
      trimChars ((f.value v).data) = [] →
      (∀ g : FieldA, g ≠ f → g.check (g.value v) = none) →
      (validateA v).map Prod.fst = [f.key]) ∧
    (∀ (v : FormValuesB) (f : FieldB), f ∈ requiredB →
      trimChars ((f.value v).data) = [] →
      (∀ g : FieldB, g ≠ f → g.check (g.value v) = none) →
      (validateB v).map Prod.fst = [f.key]) := by
  constructor
  · intro v f hf hempty hothers
    fin_cases hf
    · have hp : checkPhone v.phone = none := hothers .phone (by decide)
      have he : checkEmail v.email = none := hothers .email (by decide)
      have ht : checkResearchTopicA v.researchTopic = none :=
        hothers .researchTopic (by decide)
      have hu : checkSubmissionUrl v.submissionUrl = none :=
        hothers .submissionUrl (by decide)
      simp only [FieldA.value] at hempty
      have hn : checkName v.name = some "Name is required" := by
        simp [checkName, hempty]
      simp [validateA, fieldsA, List.filterMap_cons, FieldA.check, FieldA.value, FieldA.key,
            hn, hp, he, ht, hu]
    · have hn : checkName v.name = none := hothers .name (by decide)
      have he : checkEmail v.email = none := hothers .email (by decide)
      have ht : checkResearchTopicA v.researchTopic = none :=
        hothers .researchTopic (by decide)
      have hu : checkSubmissionUrl v.submissionUrl = none :=
        hothers .submissionUrl (by decide)
      simp only [FieldA.value] at hempty
      have hp : checkPhone v.phone = some "Phone number is required" := by
        simp [checkPhone, hempty]
      simp [validateA, fieldsA, List.filterMap_cons, FieldA.check, FieldA.value, FieldA.key,
            hn, hp, he, ht, hu]
    · have hn : checkName v.name = none := hothers .name (by decide)
      have hp : checkPhone v.phone = none := hothers .phone (by decide)
      have he : checkEmail v.email = none := hothers .email (by decide)
      have hu : checkSubmissionUrl v.submissionUrl = none :=
        hothers .submissionUrl (by decide)
      simp only [FieldA.value] at hempty
      have ht : checkResearchTopicA v.researchTopic = some "Research topic is required" := by
        simp [checkResearchTopicA, hempty]
      simp [validateA, fieldsA, List.filterMap_cons, FieldA.check, FieldA.value, FieldA.key,
            hn, hp, he, ht, hu]
  · intro v f hf hempty hothers
    fin_cases hf
    · have hp : checkPhone v.phone = none := hothers .phone (by decide)
      have he : checkEmail v.email = none := hothers .email (by decide)
      have ht : checkResearchTopicB v.researchTopic = none :=
        hothers .researchTopic (by decide)
      simp only [FieldB.value] at hempty
      have hn : checkName v.name = some "Name is required" := by
        simp [checkName, hempty]
      simp [validateB, fieldsB, List.filterMap_cons, FieldB.check, FieldB.value, FieldB.key,
            hn, hp, he, ht]
    · have hn : checkName v.name = none := hothers .name (by decide)
      have he : checkEmail v.email = none := hothers .email (by decide)
      have ht : checkResearchTopicB v.researchTopic = none :=
        hothers .researchTopic (by decide)
      simp only [FieldB.value] at hempty
      have hp : checkPhone v.phone = some "Phone number is required" := by
        simp [checkPhone, hempty]
      simp [validateB, fieldsB, List.filterMap_cons, FieldB.check, FieldB.value, FieldB.key,
            hn, hp, he, ht]
    · have hn : checkName v.name = none := hothers .name (by decide)
      have hp : checkPhone v.phone = none := hothers .phone (by decide)
      have he : checkEmail v.email = none := hothers .email (by decide)
      simp only [FieldB.value] at hempty
      have ht : checkResearchTopicB v.researchTopic = some "Research area is required" := by
        simp [checkResearchTopicB, hempty]
      simp [validateB, fieldsB, List.filterMap_cons, FieldB.check, FieldB.value, FieldB.key,
            hn, hp, he, ht]

/-- Claim C5, witness: Scenario C (empty name, all other fields valid) yields
exactly one validation entry, keyed `name`, in both variants. -/
theorem c5_witness :
    (validateA scenarioCValuesA).map Prod.fst = [FieldA.name.key] ∧
    (validateB scenarioCValuesB).map Prod.fst = [FieldB.name.key] :=
  ⟨c5_missing_required_field_single_error.1 scenarioCValuesA .name (by decide) (by decide)
     (by decide),
   c5_missing_required_field_single_error.2 scenarioCValuesB .name (by decide) (by decide)
     (by decide)⟩

/-- Claim C6: invoking submit while the SubmissionState is Submitting is a
no-op — no network call, no state change, no outcome. -/
theorem c6_submitting_guard_noop :
    (∀ (s : FormStateA) (fr : FetchResult) (now : String),
      s.submissionState = .Submitting →
      submitA s fr now = { state := s, calls := [], outcome := none }) ∧
    (∀ (url : String) (s : FormStateB) (fr : FetchResult) (now : String),
      s.submissionState = .Submitting →
      submitB url s fr now = { state := s, calls := [], outcome := none }) := by
  constructor
  · intro s fr now h
    simp [submitA, (submissionStateA_submitting_iff s).mp h]
  · intro url s fr now h
    simp [submitB, (submissionStateB_submitting_iff s).mp h]

/-- Claim C6, witness: with a submission in flight, a second submit invocation
issues no call and returns the state unchanged, in both variants. -/
theorem c6_witness :
    submitA inFlightStateA (.response 201) scenarioNow =
      { state := inFlightStateA, calls := [], outcome := none } ∧
    submitB placeholderUrl inFlightStateB (.response 201) scenarioNow =
      { state := inFlightStateB, calls := [], outcome := none } :=
  ⟨c6_submitting_guard_noop.1 inFlightStateA (.response 201) scenarioNow (by decide),
   c6_submitting_guard_noop.2 placeholderUrl inFlightStateB (.response 201) scenarioNow
     (by decide)⟩

/-- Claim C7, counterexample: the claim says an optional field whose value is
whitespace-only (empty after trimming) passes its format check. The
`submissionUrl` chain carries no `.trim()`, so on otherwise-valid values with
`submissionUrl = " "` validate reports a URL format error for it. -/
theorem c7_counterexample :
    validateA
      { name := "Jane Doe", phone := "555-1234", email := "jane@x.edu"
        researchTopic := "AI ethics", submissionUrl := " " } =
      [("submissionUrl", "Please enter a valid URL")] := by
  decide

/-- Claim C7 (amended): validate trims whitespace before the length checks of
the four trimmed fields; the email format check runs on the trimmed value but
fires whenever that value fails the email shape — including when it is empty;
the optional URL field passes its format check when its value is exactly the
empty string, but the field is not trimmed, so a whitespace-only value fails
the check. -/
theorem c7_trim_and_format_check_behavior :
    (∀ s : String, checkName s = none ↔
      1 ≤ (trimChars s.data).length ∧ (trimChars s.data).length ≤ 100) ∧
    (∀ s : String, checkPhone s = none ↔
      1 ≤ (trimChars s.data).length ∧ (trimChars s.data).length ≤ 20) ∧
    (∀ s : String, checkResearchTopicA s = none ↔
      1 ≤ (trimChars s.data).length ∧ (trimChars s.data).length ≤ 500) ∧
    (∀ s : String, checkResearchTopicB s = none ↔
      1 ≤ (trimChars s.data).length ∧ (trimChars s.data).length ≤ 500) ∧
    (∀ s : String, checkEmail s = none ↔
      emailRegexMatches (trimChars s.data) = true ∧ (trimChars s.data).length ≤ 255) ∧
    checkEmail "" = some "Invalid email address" ∧
    (∀ s : String, checkSubmissionUrl s = none ↔ (s = "" ∨ isValidUrl s = true)) ∧
    checkSubmissionUrl "" = none ∧
    checkSubmissionUrl " " = some "Please enter a valid URL" :=
  ⟨checkName_none_iff, checkPhone_none_iff, checkResearchTopicA_none_iff,
   checkResearchTopicB_none_iff, checkEmail_none_iff, by decide,
   checkSubmissionUrl_none_iff, by decide, by decide⟩

/-- Claim C7, witness: a name surrounded by whitespace passes the trimmed
length checks, through the amended theorem. -/
theorem c7_witness : checkName "  Jane Doe " = none :=
  (c7_trim_and_format_check_behavior.1 "  Jane Doe ").mpr (by decide)

/-- Claim C8: after a successful validation, the POST body's keys are the data
field names — `phone` renamed to `contact` in variant B — plus a `timestamp`
key holding the `new Date().toISOString()` reading captured at send time
(the `now` argument of the model). -/
theorem c8_payload_keys_and_timestamp :
    (∀ (s : FormStateA) (fr : FetchResult) (now : String),
      s.isSubmitting = false → validateA s.values = [] →
      ∃ req, (submitA s fr now).calls = [req] ∧
        req.httpMethod = "POST" ∧ req.contentType = "application/json" ∧
        req.body.map Prod.fst = ["name", "phone", "email", "researchTopic", "timestamp"] ∧
        ("timestamp", now) ∈ req.body) ∧
    (∀ (url : String) (s : FormStateB) (fr : FetchResult) (now : String),
      s.isSubmitting = false → validateB s.values = [] →
      ∃ req, (submitB url s fr now).calls = [req] ∧
        req.httpMethod = "POST" ∧ req.contentType = "application/json" ∧
        req.body.map Prod.fst = ["name", "contact", "email", "researchTopic", "timestamp"] ∧
        ("timestamp", now) ∈ req.body) := by
  constructor
  · intro s fr now hsub hval
    exact ⟨_, submitA_calls_eq s fr now hsub hval, rfl, rfl,
      by simp [payloadA], by simp [payloadA]⟩
  · intro url s fr now hsub hval
    exact ⟨_, submitB_calls_eq url s fr now hsub hval, rfl, rfl,
      by simp [payloadB], by simp [payloadB]⟩

/-- Claim C8, witness: the request issued for the Scenario A values carries
the expected keys and the send-time timestamp, in both variants. -/
theorem c8_witness :
    (∃ req, (submitA scenarioStateA (.response 201) scenarioNow).calls = [req] ∧
      req.httpMethod = "POST" ∧ req.contentType = "application/json" ∧
      req.body.map Prod.fst = ["name", "phone", "email", "researchTopic", "timestamp"] ∧
      ("timestamp", scenarioNow) ∈ req.body) ∧
    (∃ req,
      (submitB placeholderUrl scenarioStateB (.response 201) scenarioNow).calls = [req] ∧
      req.httpMethod = "POST" ∧ req.contentType = "application/json" ∧
      req.body.map Prod.fst = ["name", "contact", "email", "researchTopic", "timestamp"] ∧
      ("timestamp", scenarioNow) ∈ req.body) :=
  ⟨c8_payload_keys_and_timestamp.1 scenarioStateA (.response 201) scenarioNow rfl (by decide),
   c8_payload_keys_and_timestamp.2 placeholderUrl scenarioStateB (.response 201) scenarioNow
     rfl (by decide)⟩

/-- Claim C9: in the variant with the user-editable endpoint field, an empty
or omitted `submissionUrl` at send time makes the POST go to the placeholder
testing URL rather than failing or being skipped. -/
theorem c9_empty_url_falls_back_to_placeholder :
    resolveSubmissionUrl none = placeholderUrl ∧
    resolveSubmissionUrl (some "") = placeholderUrl ∧
    (∀ (s : FormStateA) (fr : FetchResult) (now : String),
      s.isSubmitting = false → validateA s.values = [] → s.values.submissionUrl = "" →
      (submitA s fr now).calls.map Request.url = [placeholderUrl]) := by
  refine ⟨rfl, by decide, ?_⟩
  intro s fr now hsub hval hurl
  rw [submitA_calls_eq s fr now hsub hval]
  simp [resolveSubmissionUrl, hurl]

/-- Claim C9, witness: the Scenario A state leaves the endpoint field empty,
and its submission is posted to the placeholder URL. -/
theorem c9_witness :
    (submitA scenarioStateA (.transportError "Failed to fetch") scenarioNow).calls.map
      Request.url = [placeholderUrl] :=
  c9_empty_url_falls_back_to_placeholder.2.2 scenarioStateA
    (.transportError "Failed to fetch") scenarioNow rfl (by decide) rfl

/-- Claim C10: however a submission attempt completes — 2xx, non-2xx,
transport error, or refused by validation — the handler never leaves the
Submitting flag set, so the form cannot stay disabled. -/
theorem c10_submitting_flag_always_cleared :
    (∀ (s : FormStateA) (fr : FetchResult) (now : String),
      s.isSubmitting = false →
      (submitA s fr now).state.isSubmitting = false ∧
      (submitA s fr now).state.submissionState ≠ .Submitting) ∧
    (∀ (url : String) (s : FormStateB) (fr : FetchResult) (now : String),
      s.isSubmitting = false →
      (submitB url s fr now).state.isSubmitting = false ∧
      (submitB url s fr now).state.submissionState ≠ .Submitting) := by
  constructor
  · intro s fr now hsub
    have hflag : (submitA s fr now).state.isSubmitting = false := by
      by_cases hval : validateA s.values = []
      · cases fr with
        | response status =>
          by_cases h : responseOk status = true <;> simp [submitA, hsub, hval, h]
        | transportError m => simp [submitA, hsub, hval]
      · simp [submitA, hsub, hval]
    refine ⟨hflag, fun hcontra => ?_⟩
    rw [submissionStateA_submitting_iff] at hcontra
    exact absurd (hflag ▸ hcontra) (by simp)
  · intro url s fr now hsub
    have hflag : (submitB url s fr now).state.isSubmitting = false := by
      by_cases hval : validateB s.values = []
      · cases fr with
        | response status =>
          by_cases h : responseOk status = true <;> simp [submitB, hsub, hval, h]
        | transportError m => simp [submitB, hsub, hval]
      · simp [submitB, hsub, hval]
    refine ⟨hflag, fun hcontra => ?_⟩
    rw [submissionStateB_submitting_iff] at hcontra
    exact absurd (hflag ▸ hcontra) (by simp)

/-- Claim C10, witness: after a transport-failed attempt from the Scenario A
state, the Submitting flag is clear in both variants. -/
theorem c10_witness :
    ((submitA scenarioStateA (.transportError "network down") scenarioNow).state.isSubmitting =
       false ∧
     (submitA scenarioStateA (.transportError "network down") scenarioNow).state.submissionState ≠
       .Submitting) ∧
    ((submitB placeholderUrl scenarioStateB (.transportError "network down")
        scenarioNow).state.isSubmitting = false ∧
     (submitB placeholderUrl scenarioStateB (.transportError "network down")
        scenarioNow).state.submissionState ≠ .Submitting) :=
  ⟨c10_submitting_flag_always_cleared.1 scenarioStateA (.transportError "network down")
     scenarioNow rfl,
   c10_submitting_flag_always_cleared.2 placeholderUrl scenarioStateB
     (.transportError "network down") scenarioNow rfl⟩

end ResearchForm
